import Mathlib

/-!
Shallow embedding of the govt-tender-intelligent-matcher pipeline.

Sources embedded:
- src/utils/firecrawl_wrapper.py : FirecrawlWrapper._extract_amount
- src/agents/tender_scraper_agent.py : get_embedding, _process_and_store_tenders, _update_index
- src/agents/company_scraper_agent.py : get_embedding, _find_matching_tenders,
  process_company_profile (serialization of recommendations)

Conventions: Python floats are modelled as exact rationals (ℚ); the quantities
the claims mention (1000000.0, 10.5 × 100000, 5 × 10^7, percentages) are exactly
representable in both. Python strings are lists of characters. The two regular
expressions of `_extract_amount` are embedded as deterministic character-level
matchers; for these two patterns greedy maximal-munch coincides with Python's
backtracking search (the required alternation `lakhs?|crores?|cr` starts with a
letter, while every character a quantifier could give back is a digit, comma,
dot or whitespace, so backtracking never turns a failure into a success).
-/

/-! ### Character helpers -/

/-- Case-insensitive match: `c.toLower` against an (already lowercase) pattern char. -/
def matchLitCI : List Char → List Char → Option (List Char)
  | [], rest => some rest
  | _ :: _, [] => none
  | p :: ps, c :: rest => if c.toLower == p then matchLitCI ps rest else none

/-- Python's `\s` on the inputs in scope (ASCII whitespace). -/
def isSpaceCh (c : Char) : Bool :=
  c == ' ' || c == '\t' || c == '\n' || c == '\r' || c == Char.ofNat 11 || c == Char.ofNat 12

/-- The character class `[\d,]` of the amount regexes. -/
def isDigitOrComma (c : Char) : Bool := c.isDigit || c == ','

/-- `startsWith big pat`: `pat` is an initial run of `big`. -/
def listStartsWith : List Char → List Char → Bool
  | _, [] => true
  | [], _ :: _ => false
  | c :: cs, p :: ps => c == p && listStartsWith cs ps

/-- Python's `pat in big` substring test. -/
def containsSub : List Char → List Char → Bool
  | [], pat => pat.isEmpty
  | c :: cs, pat => listStartsWith (c :: cs) pat || containsSub cs pat

/-! ### The two amount regexes of `FirecrawlWrapper._extract_amount` -/

/-- The optional fractional part `(?:\.\d+)?`: returns (consumed chars, rest). -/
def matchFrac (cs : List Char) : List Char × List Char :=
  match cs with
  | '.' :: rest =>
      let ds := rest.takeWhile Char.isDigit
      if ds.isEmpty then ([], cs) else ('.' :: ds, rest.dropWhile Char.isDigit)
  | _ => ([], cs)

/-- Try one magnitude word case-insensitively; returns the original-case consumed
characters and the rest. -/
def tryWordCI (w : List Char) (cs : List Char) : Option (List Char × List Char) :=
  match matchLitCI w cs with
  | some rest => some (cs.take w.length, rest)
  | none => none

/-- The alternation `lakhs?|crores?|cr`, alternatives in Python's backtracking order. -/
def tryMagWord (cs : List Char) : Option (List Char × List Char) :=
  tryWordCI "lakhs".data cs <|> tryWordCI "lakh".data cs <|>
  tryWordCI "crores".data cs <|> tryWordCI "crore".data cs <|> tryWordCI "cr".data cs

/-- The optional group `(?:\s*(?:lakhs?|crores?|cr))?`: returns (consumed chars, rest). -/
def matchMag (cs : List Char) : List Char × List Char :=
  let ws := cs.takeWhile isSpaceCh
  let rest := cs.dropWhile isSpaceCh
  match tryMagWord rest with
  | some (w, r) => (ws ++ w, r)
  | none => ([], cs)

/-- After a currency marker: `\s*([\d,]+(?:\.\d+)?(?:\s*(?:lakhs?|crores?|cr))?)`.
Returns group 1 of pattern 1 when it matches here. -/
def afterMarker (rest : List Char) : Option (List Char) :=
  let rest2 := rest.dropWhile isSpaceCh
  let ds := rest2.takeWhile isDigitOrComma
  if ds.isEmpty then none
  else
    let rest3 := rest2.dropWhile isDigitOrComma
    let (fr, rest4) := matchFrac rest3
    let (mg, _) := matchMag rest4
    some (ds ++ fr ++ mg)

/-- Pattern 1, `(?:Rs\.?|₹|INR)\s*([\d,]+(?:\.\d+)?(?:\s*(?:lakhs?|crores?|cr))?)`,
matched at the head of `cs` (group 1 on success). The marker alternatives are
tried in Python's order: `Rs.` then `Rs` then `₹` then `INR`. -/
def matchP1At (cs : List Char) : Option (List Char) :=
  (matchLitCI "rs.".data cs).bind afterMarker <|>
  (matchLitCI "rs".data cs).bind afterMarker <|>
  (matchLitCI "₹".data cs).bind afterMarker <|>
  (matchLitCI "inr".data cs).bind afterMarker

/-- `re.search` for pattern 1: leftmost matching position wins. -/
def searchP1 : List Char → Option (List Char)
  | [] => matchP1At []
  | c :: rest => matchP1At (c :: rest) <|> searchP1 rest

/-- Pattern 2, `([\d,]+(?:\.\d+)?)\s*(?:lakhs?|crores?|cr)`, matched at the head
of `cs` (group 1 on success; the magnitude word is outside the group). -/
def matchP2At (cs : List Char) : Option (List Char) :=
  let ds := cs.takeWhile isDigitOrComma
  if ds.isEmpty then none
  else
    let rest2 := cs.dropWhile isDigitOrComma
    let (fr, rest3) := matchFrac rest2
    let rest4 := rest3.dropWhile isSpaceCh
    if (tryMagWord rest4).isSome then some (ds ++ fr) else none

/-- `re.search` for pattern 2. -/
def searchP2 : List Char → Option (List Char)
  | [] => matchP2At []
  | c :: rest => matchP2At (c :: rest) <|> searchP2 rest

/-! ### Parsing and the multiplier rule -/

def digitsToNat (cs : List Char) : ℕ :=
  cs.foldl (fun n c => 10 * n + (c.toNat - '0'.toNat)) 0

/-- Python's `float(s)` on the strings reachable from the regex groups (digits,
dots, commas already stripped, possibly letters or spaces from a magnitude
suffix): succeeds exactly on strings of digits with at most one dot and at
least one digit. -/
def parsePyFloat (cs : List Char) : Option ℚ :=
  if cs.any Char.isDigit && cs.all (fun c => c.isDigit || c == '.')
      && decide (cs.count '.' ≤ 1) then
    let ip := cs.takeWhile (fun c => c != '.')
    let fp := (cs.dropWhile (fun c => c != '.')).drop 1
    some ((digitsToNat ip : ℚ) + (digitsToNat fp : ℚ) / (10 : ℚ) ^ fp.length)
  else none

def stripCommas (cs : List Char) : List Char := cs.filter (fun c => c != ',')

/-- `amount_str = match.group(1).replace(',', '')` followed by the
lakh/crore multiplier branches; `none` models the `ValueError` path.
`low` is `text.lower()` as a character list. -/
def applyGroup (low : List Char) (g : List Char) : Option ℚ :=
  match parsePyFloat (stripCommas g) with
  | none => none
  | some v =>
      if containsSub low "lakh".data then some (v * 100000)
      else if containsSub low "cr".data || containsSub low "crore".data then
        some (v * 10000000)
      else some v

/-- `FirecrawlWrapper._extract_amount`: the two patterns are tried in order;
a pattern that does not match, or whose group fails to parse (`ValueError`),
falls through to the next; `none` when neither yields a value. -/
def extract_amount (text : String) : Option ℚ :=
  let cs := text.data
  let low := cs.map Char.toLower
  match (searchP1 cs).bind (applyGroup low) with
  | some v => some v
  | none => (searchP2 cs).bind (applyGroup low)

/-! ### Data model (src/utils/config.py) -/

structure TenderSchema where
  id : String
  title : String
  description : String
  amount : Option ℚ := none
  deadline : Option String := none
  source : String
  url : String
  category : Option String := none
  department : Option String := none
  location : Option String := none
  publication_date : Option String := none
  raw_text : String
  embedding : Option (List ℚ) := none
deriving DecidableEq, Repr

structure RecommendationSchema where
  tender_id : String
  tender_title : String
  similarity_score : ℚ
  tender_details : TenderSchema
deriving DecidableEq, Repr

/-! ### Similarity scoring (src/agents/company_scraper_agent.py, lines 252-254) -/

/-- `similarity_score = max(0, min(100, (1.0 - distance/10) * 100))`. -/
def similarity_score_of (distance : ℚ) : ℚ :=
  max 0 (min 100 ((1 - distance / 10) * 100))

/-- The spec's reference definition `clamp(0, 100, (1 - distance/10) * 100)`. -/
def clampSpec (lo hi x : ℚ) : ℚ := max lo (min hi x)

/-! ### The matching engine (`CompanyScraperAgent._find_matching_tenders`)

The FAISS call `index.search(q, k)` is abstracted as a function
`search : ℕ → List (ℕ × ℚ)` from the requested neighbor count to the
`(ordinal, distance)` rows of its result; its contract (row count, ascending
distances) enters the theorems as hypotheses. Building one
`RecommendationSchema` from a neighbor is a `build` parameter returning
`Except Unit`, so that an exception raised mid-loop (the spec's "exception
during scoring") is representable; `pureBuild` is the actual constructor of
the source, which cannot fail. The surrounding `try/except` of the source
returns `[]` on error. -/

def mkRecommendation (t : TenderSchema) (distance : ℚ) : RecommendationSchema :=
  { tender_id := t.id, tender_title := t.title,
    similarity_score := similarity_score_of distance, tender_details := t }

def pureBuild (t : TenderSchema) (d : ℚ) : Except Unit RecommendationSchema :=
  .ok (mkRecommendation t d)

/-- Descending order on `similarity_score` (the key of the final `sort` with
`reverse=True`). -/
def recGE (a b : RecommendationSchema) : Prop :=
  b.similarity_score ≤ a.similarity_score

instance : DecidableRel recGE :=
  fun a b => inferInstanceAs (Decidable (b.similarity_score ≤ a.similarity_score))

instance : IsTotal RecommendationSchema recGE :=
  ⟨fun a b => le_total b.similarity_score a.similarity_score⟩

instance : IsTrans RecommendationSchema recGE :=
  ⟨fun _ _ _ h1 h2 => le_trans h2 h1⟩

/-- `recommendations.sort(key=lambda x: x.similarity_score, reverse=True)`:
Python's stable descending sort, realized as stable insertion sort. -/
def sortRecsDesc (l : List RecommendationSchema) : List RecommendationSchema :=
  List.insertionSort recGE l

/-- The scoring loop: for each `(ordinal, distance)` row, build a
recommendation when the ordinal is in range of the store; a raised exception
aborts the loop. `acc` holds recommendations already built. -/
def scoreNeighbors (build : TenderSchema → ℚ → Except Unit RecommendationSchema)
    (tenders : List TenderSchema) :
    List (ℕ × ℚ) → List RecommendationSchema → Except Unit (List RecommendationSchema)
  | [], acc => .ok acc
  | p :: ps, acc =>
      if h : p.1 < tenders.length then
        match build tenders[p.1] p.2 with
        | .error e => .error e
        | .ok r => scoreNeighbors build tenders ps (acc ++ [r])
      else scoreNeighbors build tenders ps acc

/-- The recommendations already built when the scoring loop raises (or all of
them when no exception occurs). -/
def builtBefore (build : TenderSchema → ℚ → Except Unit RecommendationSchema)
    (tenders : List TenderSchema) :
    List (ℕ × ℚ) → List RecommendationSchema → List RecommendationSchema
  | [], acc => acc
  | p :: ps, acc =>
      if h : p.1 < tenders.length then
        match build tenders[p.1] p.2 with
        | .error _ => acc
        | .ok r => builtBefore build tenders ps (acc ++ [r])
      else builtBefore build tenders ps acc

/-- `CompanyScraperAgent._find_matching_tenders`: guard on missing index,
empty store, empty index; query `min(top_k, ntotal)` neighbors; score them;
sort descending; on any exception return `[]`. -/
def find_matching_tenders (build : TenderSchema → ℚ → Except Unit RecommendationSchema)
    (search : ℕ → List (ℕ × ℚ)) (index : Option (List (List ℚ)))
    (tenders : List TenderSchema) (top_k : ℕ) : List RecommendationSchema :=
  match index with
  | none => []
  | some vecs =>
      if tenders.isEmpty || vecs.length == 0 then []
      else
        match scoreNeighbors build tenders (search (min top_k vecs.length)) [] with
        | .ok recs => sortRecsDesc recs
        | .error _ => []

/-- `process_company_profile` reaches the matcher through
`self._find_matching_tenders(company_info)`, leaving `top_k` at its default
of 10; the external caller cannot change it. -/
def process_company_profile_recs (build : TenderSchema → ℚ → Except Unit RecommendationSchema)
    (search : ℕ → List (ℕ × ℚ)) (index : Option (List (List ℚ)))
    (tenders : List TenderSchema) : List RecommendationSchema :=
  find_matching_tenders build search index tenders 10

/-! ### External serialization (`process_company_profile`, C9) -/

inductive JValue where
  | jnull
  | jstr (s : String)
  | jnum (q : ℚ)
  | jlist (l : List JValue)
  | jobj (fields : List (String × JValue))

def dumpOptStr : Option String → JValue
  | none => .jnull
  | some s => .jstr s

def dumpOptNum : Option ℚ → JValue
  | none => .jnull
  | some q => .jnum q

def dumpEmbedding : Option (List ℚ) → JValue
  | none => .jnull
  | some v => .jlist (v.map .jnum)

/-- `TenderSchema.model_dump()` with no exclusions: every field, the embedding
included. -/
def tender_model_dump (t : TenderSchema) : JValue :=
  .jobj [("id", .jstr t.id), ("title", .jstr t.title),
         ("description", .jstr t.description), ("amount", dumpOptNum t.amount),
         ("deadline", dumpOptStr t.deadline), ("source", .jstr t.source),
         ("url", .jstr t.url), ("category", dumpOptStr t.category),
         ("department", dumpOptStr t.department), ("location", dumpOptStr t.location),
         ("publication_date", dumpOptStr t.publication_date),
         ("raw_text", .jstr t.raw_text), ("embedding", dumpEmbedding t.embedding)]

/-- Modelled from pydantic v2 `BaseModel.model_dump(exclude=<set of str>)`:
each string in the set is compared against the model's own top-level field
names; a dotted path such as "tender_details.embedding" is not interpreted as
a nested exclusion (that requires a mapping value) and matches no field. -/
def rec_model_dump (r : RecommendationSchema) (exclude : List String) : JValue :=
  .jobj (([("tender_id", .jstr r.tender_id),
           ("tender_title", .jstr r.tender_title),
           ("similarity_score", .jnum r.similarity_score),
           ("tender_details", tender_model_dump r.tender_details)]).filter
            (fun f => !(exclude.contains f.1)))

/-- The `recommendations` list of a successful `process_company_profile`
result: `[rec.model_dump(exclude={"tender_details.embedding"}) for rec in recommendations]`. -/
def serialize_recommendations (recs : List RecommendationSchema) : List JValue :=
  recs.map (fun r => rec_model_dump r ["tender_details.embedding"])

/-- Field lookup in a serialized object. -/
def jlookup (j : JValue) (k : String) : Option JValue :=
  match j with
  | .jobj fields => (fields.find? (fun f => f.1 == k)).map (fun f => f.2)
  | _ => none

/-! ### Embedding service (`get_embedding` of both agents, C7) -/

/-- Outcome of the HTTP round trip to the embedding service: `raised` covers a
network exception or a JSON-decoding failure; `response status embedding`
covers a decoded response, whose "embedding" key may be absent. -/
inductive EmbOutcome where
  | raised
  | response (status : ℕ) (embedding : Option (List ℚ))

/-- `TenderScraperAgent.get_embedding`: the fallback zero vector has the
configured length `VECTOR_DIMENSION = int(os.getenv("VECTOR_DIMENSION", "384"))`,
passed here as `vectorDimension`. -/
def tender_get_embedding (vectorDimension : ℕ) (o : EmbOutcome) : List ℚ :=
  match o with
  | .raised => List.replicate vectorDimension 0
  | .response status emb =>
      if status != 200 then List.replicate vectorDimension 0
      else emb.getD (List.replicate vectorDimension 0)

/-- `CompanyScraperAgent.get_embedding`: the fallback zero vector has the
hard-coded length 384 (`[0.0] * 384`), independent of the configuration. -/
def company_get_embedding (o : EmbOutcome) : List ℚ :=
  match o with
  | .raised => List.replicate 384 0
  | .response status emb =>
      if status != 200 then List.replicate 384 0
      else emb.getD (List.replicate 384 0)

/-- An embedding-service failure: non-success status, network/parse exception,
or a response without an "embedding" key. -/
def embFailed : EmbOutcome → Prop
  | .raised => True
  | .response status emb => status ≠ 200 ∨ emb = none

/-! ### Scrape-and-store cycles (`TenderScraperAgent`, C1)

The persisted index/store pair is modelled in memory (`_load_index_and_tenders`
and `_save_index_and_tenders` round-trip the same data). The embedding service
is an oracle `emb : String → List ℚ`; `get_embedding` never raises (it catches
everything and degrades to the zero vector), `_save_raw_tender` catches its own
errors, and pydantic does not validate plain attribute assignment, so the
per-tender `try` body of `_process_and_store_tenders` completes for every
tender of the batch. -/

structure AgentState where
  tenders : List TenderSchema
  index : Option (List (List ℚ))
deriving DecidableEq

/-- The vectors held by the index, in ordinal order (`none` = no index yet). -/
def indexVecs (ix : Option (List (List ℚ))) : List (List ℚ) := ix.getD []

/-- `text_for_embedding = f"{tender.title} {tender.description}"`. -/
def embText (t : TenderSchema) : String := t.title ++ " " ++ t.description

/-- `TenderScraperAgent._update_index`: no-op on an empty batch; otherwise
create the index if absent and append the new vectors in order. -/
def update_index (ix : Option (List (List ℚ))) (newEmbeddings : List (List ℚ)) :
    Option (List (List ℚ)) :=
  if newEmbeddings.isEmpty then ix
  else some (indexVecs ix ++ newEmbeddings)

/-- The loop body stores the computed embedding on the tender object. -/
def withEmbedding (emb : String → List ℚ) (t : TenderSchema) : TenderSchema :=
  { t with embedding := some (emb (embText t)) }

/-- `TenderScraperAgent._process_and_store_tenders`: embed every tender of the
batch, extend the store, extend the index — all in the same call. -/
def process_and_store_tenders (emb : String → List ℚ) (batch : List TenderSchema)
    (s : AgentState) : AgentState :=
  let newTenders := batch.map (withEmbedding emb)
  let embeddings := batch.map (fun t => emb (embText t))
  if newTenders.isEmpty then s
  else { tenders := s.tenders ++ newTenders, index := update_index s.index embeddings }

def initAgentState : AgentState := { tenders := [], index := none }

/-- A sequence of completed scrape-and-store cycles starting from the empty
persisted state. -/
def runScrapeCycles (emb : String → List ℚ) (batches : List (List TenderSchema)) :
    AgentState :=
  batches.foldl (fun s b => process_and_store_tenders emb b s) initAgentState


/-! ### Theorems -/

/-- The spec's multiplier rule applied to a parsed literal, with `low` the
lowercased surrounding text. -/
def multRule (low : List Char) (v : ℚ) : ℚ :=
  if containsSub low "lakh".data then v * 100000
  else if containsSub low "cr".data || containsSub low "crore".data then v * 10000000
  else v

theorem applyGroup_parse (low g : List Char) (v : ℚ)
    (h : parsePyFloat (stripCommas g) = some v) :
    applyGroup low g = some (multRule low v) := by
  simp only [applyGroup, h, multRule]
  split_ifs <;> rfl

theorem parsePyFloat_eval (cs fp : List Char) (n m : ℕ)
    (hc : (cs.any Char.isDigit && cs.all (fun c => c.isDigit || c == '.')
      && decide (cs.count '.' ≤ 1)) = true)
    (hn : digitsToNat (cs.takeWhile (fun c => c != '.')) = n)
    (hfp : (cs.dropWhile (fun c => c != '.')).drop 1 = fp)
    (hm : digitsToNat fp = m) :
    parsePyFloat cs = some ((n : ℚ) + (m : ℚ) / (10 : ℚ) ^ fp.length) := by
  unfold parsePyFloat
  rw [if_pos hc]
  dsimp only []
  rw [hn, hfp, hm]

theorem extract_amount_of_p1 (text : String) (g : List Char) (v : ℚ)
    (h1 : searchP1 text.data = some g)
    (hp : parsePyFloat (stripCommas g) = some v) :
    extract_amount text = some (multRule (text.data.map Char.toLower) v) := by
  simp only [extract_amount, h1, Option.some_bind, applyGroup_parse _ g v hp]

theorem extract_amount_of_p2 (text : String) (g : List Char) (v : ℚ)
    (h1 : (searchP1 text.data).bind (applyGroup (text.data.map Char.toLower)) = none)
    (h2 : searchP2 text.data = some g)
    (hp : parsePyFloat (stripCommas g) = some v) :
    extract_amount text = some (multRule (text.data.map Char.toLower) v) := by
  simp only [extract_amount] at h1 ⊢
  rw [h1, h2, Option.some_bind, applyGroup_parse _ g v hp]

/-- C3: the amount extractor satisfies the reference test vectors; any text that
neither amount pattern matches yields no result; and whenever the winning
pattern's comma-stripped literal parses, the returned value follows the
lakh/crore multiplier rule on the lowercased surrounding text. -/
theorem C3_amount_extraction_vectors :
    extract_amount "Rs. 1,000,000" = some 1000000 ∧
    extract_amount "₹ 10.5 Lakhs" = some 1050000 ∧
    extract_amount "INR 5 Cr" = some 50000000 ∧
    (∀ text : String, searchP1 text.data = none → searchP2 text.data = none →
      extract_amount text = none) ∧
    (∀ (text : String) (g : List Char) (v : ℚ),
      searchP1 text.data = some g → parsePyFloat (stripCommas g) = some v →
      extract_amount text = some (multRule (text.data.map Char.toLower) v)) ∧
    (∀ (text : String) (g : List Char) (v : ℚ),
      (searchP1 text.data).bind (applyGroup (text.data.map Char.toLower)) = none →
      searchP2 text.data = some g → parsePyFloat (stripCommas g) = some v →
      extract_amount text = some (multRule (text.data.map Char.toLower) v)) := by
  refine ⟨?_, ?_, ?_, ?_, extract_amount_of_p1, extract_amount_of_p2⟩
  · have e := extract_amount_of_p1 "Rs. 1,000,000" "1,000,000".data _ (by decide)
      (parsePyFloat_eval _ [] 1000000 0 (by decide) (by decide) (by decide) (by decide))
    rw [e]
    unfold multRule
    rw [if_neg (by decide), if_neg (by decide)]
    norm_num
  · have e := extract_amount_of_p2 "₹ 10.5 Lakhs" "10.5".data _ (by decide) (by decide)
      (parsePyFloat_eval _ ['5'] 10 5 (by decide) (by decide) (by decide) (by decide))
    rw [e]
    unfold multRule
    rw [if_pos (by decide)]
    norm_num
  · have e := extract_amount_of_p2 "INR 5 Cr" "5".data _ (by decide) (by decide)
      (parsePyFloat_eval _ [] 5 0 (by decide) (by decide) (by decide) (by decide))
    rw [e]
    unfold multRule
    rw [if_neg (by decide), if_pos (by decide)]
    norm_num
  · intro text h1 h2
    simp only [extract_amount, h1, h2, Option.none_bind]

/-- C3 witness: the no-match clause at a concrete marker-free text. -/
theorem C3_amount_extraction_vectors_witness :
    extract_amount "open tender for road work" = none :=
  C3_amount_extraction_vectors.2.2.2.1 "open tender for road work" (by decide) (by decide)

/-- C4 counterexample: on "₹ 10.5 Lakhs" the first pattern is the winning
(first-matching) one, with group "10.5 Lakhs", whose comma-stripped literal
fails to parse — yet the extractor does not return "no result": it falls
through to the second pattern and returns 1050000. -/
theorem C4_first_match_counterexample :
    searchP1 "₹ 10.5 Lakhs".data = some "10.5 Lakhs".data ∧
    parsePyFloat (stripCommas "10.5 Lakhs".data) = none ∧
    extract_amount "₹ 10.5 Lakhs" = some 1050000 := by
  refine ⟨by decide, by decide, ?_⟩
  have e := extract_amount_of_p2 "₹ 10.5 Lakhs" "10.5".data _ (by decide) (by decide)
    (parsePyFloat_eval _ ['5'] 10 5 (by decide) (by decide) (by decide) (by decide))
  rw [e]
  unfold multRule
  rw [if_pos (by decide)]
  norm_num

/-- C4 amended: the two patterns are tried in order and the first pattern that
both matches and whose comma-stripped literal parses supplies the result; a
pattern whose matched literal fails to parse falls through to the next pattern;
the extractor returns no result exactly when neither pattern yields a
parseable match. -/
theorem C4_pattern_order_fallthrough :
    ∀ text : String,
      (extract_amount text = none ↔
        ((searchP1 text.data).bind (applyGroup (text.data.map Char.toLower)) = none ∧
         (searchP2 text.data).bind (applyGroup (text.data.map Char.toLower)) = none)) ∧
      (∀ v : ℚ,
        (searchP1 text.data).bind (applyGroup (text.data.map Char.toLower)) = some v →
        extract_amount text = some v) ∧
      ((searchP1 text.data).bind (applyGroup (text.data.map Char.toLower)) = none →
        ∀ v : ℚ,
          (searchP2 text.data).bind (applyGroup (text.data.map Char.toLower)) = some v →
          extract_amount text = some v) := by
  intro text
  refine ⟨⟨?_, ?_⟩, ?_, ?_⟩
  · intro h
    simp only [extract_amount] at h
    cases hb : (searchP1 text.data).bind (applyGroup (text.data.map Char.toLower)) with
    | none => rw [hb] at h; exact ⟨rfl, h⟩
    | some v => rw [hb] at h; exact absurd h (by simp)
  · intro ⟨h1, h2⟩
    simp only [extract_amount, h1, h2]
  · intro v h1
    simp only [extract_amount, h1]
  · intro h1 v h2
    simp only [extract_amount, h1, h2]

/-- C4 amended witness: at "₹ 10.5 Lakhs", pattern 1 yields no value (its
matched literal does not parse) and pattern 2 supplies 1050000. -/
theorem C4_pattern_order_fallthrough_witness :
    extract_amount "₹ 10.5 Lakhs" = some 1050000 := by
  have h2 : (searchP2 "₹ 10.5 Lakhs".data).bind
      (applyGroup ("₹ 10.5 Lakhs".data.map Char.toLower)) = some 1050000 := by
    have hp := parsePyFloat_eval (stripCommas "10.5".data) ['5'] 10 5
      (by decide) (by decide) (by decide) (by decide)
    have ha := applyGroup_parse ("₹ 10.5 Lakhs".data.map Char.toLower) "10.5".data _ hp
    rw [(by decide : searchP2 "₹ 10.5 Lakhs".data = some "10.5".data), Option.some_bind, ha]
    unfold multRule
    rw [if_pos (by decide)]
    norm_num
  exact (C4_pattern_order_fallthrough "₹ 10.5 Lakhs").2.2 (by decide) 1050000 h2

/-- C5: the code's distance-to-similarity conversion equals the spec's
`clamp(0, 100, (1 - d/10) * 100)`; for every distance `d ≥ 0` the score lies
in `[0, 100]`; and `d = 0 ↦ 100`, `d = 10 ↦ 0`, `d = 20 ↦ 0` (clamped, never
negative). -/
theorem C5_similarity_clamp :
    (∀ d : ℚ, similarity_score_of d = clampSpec 0 100 ((1 - d / 10) * 100)) ∧
    (∀ d : ℚ, 0 ≤ d → 0 ≤ similarity_score_of d ∧ similarity_score_of d ≤ 100) ∧
    similarity_score_of 0 = 100 ∧ similarity_score_of 10 = 0 ∧
    similarity_score_of 20 = 0 := by
  refine ⟨fun d => rfl,
    fun d _ => ⟨le_max_left 0 _, max_le (by norm_num) (min_le_left 100 _)⟩,
    by norm_num [similarity_score_of, min_def, max_def],
    by norm_num [similarity_score_of, min_def, max_def],
    by norm_num [similarity_score_of, min_def, max_def]⟩

/-- C5 witness: the bound clause at the concrete distance 5. -/
theorem C5_similarity_clamp_witness :
    (0 : ℚ) ≤ 5 ∧ 0 ≤ similarity_score_of 5 ∧ similarity_score_of 5 ≤ 100 :=
  ⟨by norm_num, C5_similarity_clamp.2.1 5 (by norm_num)⟩

/-! ### Sort lemmas: stability and sortedness of the final descending sort -/

theorem filter_scoreEq_orderedInsert (q : ℚ) (r : RecommendationSchema) :
    ∀ l : List RecommendationSchema,
      (List.orderedInsert recGE r l).filter (fun a => decide (a.similarity_score = q)) =
        ((r :: l).filter (fun a => decide (a.similarity_score = q)))
  | [] => rfl
  | x :: xs => by
      rw [List.orderedInsert]
      by_cases h : recGE r x
      · rw [if_pos h]
      · rw [if_neg h]
        have hlt : r.similarity_score < x.similarity_score := lt_of_not_le h
        by_cases hx : x.similarity_score = q <;> by_cases hr : r.similarity_score = q
        · exact absurd (hx.trans hr.symm) (ne_of_gt hlt)
        · simp [List.filter_cons, hx, hr, filter_scoreEq_orderedInsert q r xs]
        · simp [List.filter_cons, hx, hr, filter_scoreEq_orderedInsert q r xs]
        · simp [List.filter_cons, hx, hr, filter_scoreEq_orderedInsert q r xs]

theorem filter_scoreEq_insertionSort (q : ℚ) :
    ∀ l : List RecommendationSchema,
      (List.insertionSort recGE l).filter (fun a => decide (a.similarity_score = q)) =
        l.filter (fun a => decide (a.similarity_score = q))
  | [] => rfl
  | x :: xs => by
      rw [List.insertionSort, filter_scoreEq_orderedInsert, List.filter_cons,
        List.filter_cons, filter_scoreEq_insertionSort q xs]

/-! ### Length bound for the scoring loop -/

theorem scoreNeighbors_length (build : TenderSchema → ℚ → Except Unit RecommendationSchema)
    (tenders : List TenderSchema) :
    ∀ (ps : List (ℕ × ℚ)) (acc recs : List RecommendationSchema),
      scoreNeighbors build tenders ps acc = .ok recs →
      recs.length ≤ acc.length + ps.length
  | [], acc, recs, h => by
      rw [scoreNeighbors] at h
      cases h
      simp
  | p :: ps, acc, recs, h => by
      rw [scoreNeighbors] at h
      by_cases hidx : p.1 < tenders.length
      · rw [dif_pos hidx] at h
        cases hb : build tenders[p.1] p.2 with
        | error e => rw [hb] at h; exact absurd h (by simp)
        | ok r =>
            rw [hb] at h
            have := scoreNeighbors_length build tenders ps (acc ++ [r]) recs h
            simp only [List.length_append, List.length_cons, List.length_nil] at this ⊢
            omega
      · rw [dif_neg hidx] at h
        have := scoreNeighbors_length build tenders ps acc recs h
        simp only [List.length_cons] at this ⊢
        omega

/-- C6: if the Vector Index is absent, the Tender Store is empty, or the index
holds no vectors, the matching engine returns the empty recommendation list.
The embedding is a total function, so no exception is raised on this path. -/
theorem C6_empty_precondition :
    ∀ (build : TenderSchema → ℚ → Except Unit RecommendationSchema)
      (search : ℕ → List (ℕ × ℚ)) (index : Option (List (List ℚ)))
      (tenders : List TenderSchema) (top_k : ℕ),
      index = none ∨ tenders = [] ∨ indexVecs index = [] →
      find_matching_tenders build search index tenders top_k = [] := by
  intro build search index tenders top_k h
  cases index with
  | none => rfl
  | some vecs =>
      rcases h with h | h | h
      · exact absurd h (by simp)
      · subst h
        rw [find_matching_tenders, if_pos (by simp)]
      · have hv : vecs = [] := by simpa [indexVecs] using h
        subst hv
        rw [find_matching_tenders, if_pos (by simp)]

/-- C6 witness: matching against a present-but-empty index and a non-empty
store returns the empty list. -/
theorem C6_empty_precondition_witness :
    find_matching_tenders pureBuild (fun _ => []) (some [])
      [{ id := "a", title := "A", description := "da", source := "s", url := "u",
         raw_text := "ra" }] 10 = [] :=
  C6_empty_precondition pureBuild (fun _ => []) (some []) _ 10 (Or.inr (Or.inr rfl))

/-! ### Concrete fixtures for the matching-engine claims -/

def tA : TenderSchema :=
  { id := "a", title := "A", description := "da", source := "s", url := "u", raw_text := "ra" }

def tB : TenderSchema :=
  { id := "b", title := "B", description := "db", source := "s", url := "u", raw_text := "rb" }

/-- A per-neighbor builder that succeeds on tender "a" and raises on any
other tender, modelling an exception thrown partway through the scoring loop
(e.g. a schema-validation error on the second neighbor). -/
def failBuild : TenderSchema → ℚ → Except Unit RecommendationSchema :=
  fun t d => if t.id == "a" then .ok (mkRecommendation t d) else .error ()

/-- C2 counterexample: with two neighbors whose scoring fails on the second,
one Recommendation has been successfully built before the failure, yet the
engine returns the empty list — not the non-empty prefix built so far. -/
theorem C2_built_results_discarded :
    builtBefore failBuild [tA, tB] [(0, (0 : ℚ)), (1, 5)] [] = [mkRecommendation tA 0] ∧
    scoreNeighbors failBuild [tA, tB] [(0, (0 : ℚ)), (1, 5)] [] = .error () ∧
    find_matching_tenders failBuild (fun _ => [(0, (0 : ℚ)), (1, 5)])
      (some [[1], [1]]) [tA, tB] 10 = [] ∧
    find_matching_tenders failBuild (fun _ => [(0, (0 : ℚ)), (1, 5)])
      (some [[1], [1]]) [tA, tB] 10 ≠ [mkRecommendation tA 0] := by
  refine ⟨rfl, rfl, rfl, ?_⟩
  intro h
  have h0 : ([] : List RecommendationSchema) = [mkRecommendation tA 0] := h
  exact absurd h0 (by simp)

/-- C2 amended: when an exception is raised during the scoring loop, the
engine catches it and returns the empty list, discarding the recommendations
built before the failure. -/
theorem C2_exception_returns_empty :
    ∀ (build : TenderSchema → ℚ → Except Unit RecommendationSchema)
      (search : ℕ → List (ℕ × ℚ)) (vecs : List (List ℚ))
      (tenders : List TenderSchema) (top_k : ℕ) (e : Unit),
      scoreNeighbors build tenders (search (min top_k vecs.length)) [] = .error e →
      find_matching_tenders build search (some vecs) tenders top_k = [] := by
  intro build search vecs tenders top_k e hs
  rw [find_matching_tenders]
  by_cases hg : (tenders.isEmpty || vecs.length == 0) = true
  · rw [if_pos hg]
  · rw [if_neg hg, hs]

/-- C2 amended witness: the failing two-neighbor run returns the empty list. -/
theorem C2_exception_returns_empty_witness :
    find_matching_tenders failBuild (fun _ => [(0, (0 : ℚ)), (1, 5)])
      (some [[1], [1]]) [tA, tB] 10 = [] :=
  C2_exception_returns_empty failBuild (fun _ => [(0, (0 : ℚ)), (1, 5)])
    [[1], [1]] [tA, tB] 10 () rfl

/-- C8: the recommendation list returned by the matching engine is sorted
descending by `similarity_score`; and (stability) whenever the scoring loop
completes with the list `recs`, in original ascending-distance neighbor order,
the recommendations of any fixed score appear in the output in exactly the
order they have in `recs`. -/
theorem C8_sort_contract :
    ∀ (build : TenderSchema → ℚ → Except Unit RecommendationSchema)
      (search : ℕ → List (ℕ × ℚ)) (index : Option (List (List ℚ)))
      (tenders : List TenderSchema) (top_k : ℕ),
      List.Sorted recGE (find_matching_tenders build search index tenders top_k) ∧
      (∀ (vecs : List (List ℚ)) (recs : List RecommendationSchema) (q : ℚ),
        index = some vecs → tenders ≠ [] → vecs ≠ [] →
        scoreNeighbors build tenders (search (min top_k vecs.length)) [] = .ok recs →
        (find_matching_tenders build search index tenders top_k).filter
            (fun a => decide (a.similarity_score = q)) =
          recs.filter (fun a => decide (a.similarity_score = q))) := by
  intro build search index tenders top_k
  constructor
  · cases index with
    | none => exact List.sorted_nil
    | some vecs =>
        rw [find_matching_tenders]
        by_cases hg : (tenders.isEmpty || vecs.length == 0) = true
        · rw [if_pos hg]; exact List.sorted_nil
        · rw [if_neg hg]
          cases hs : scoreNeighbors build tenders (search (min top_k vecs.length)) [] with
          | error e => exact List.sorted_nil
          | ok recs => exact List.sorted_insertionSort recGE recs
  · intro vecs recs q hidx htn hvn hs
    subst hidx
    rw [find_matching_tenders]
    have hg : (tenders.isEmpty || vecs.length == 0) = false := by
      simp [htn, List.length_eq_zero, hvn]
    rw [hg]
    rw [if_neg (by simp), hs]
    exact filter_scoreEq_insertionSort q recs

/-- C8 witness: two neighbors at equal distance 0 give two equal-score
recommendations; the sorted output preserves their original neighbor order. -/
theorem C8_sort_contract_witness :
    (find_matching_tenders pureBuild (fun _ => [(0, (0 : ℚ)), (1, 0)])
        (some [[1], [1]]) [tA, tB] 10).filter
      (fun a => decide (a.similarity_score = similarity_score_of 0)) =
    [mkRecommendation tA 0, mkRecommendation tB 0].filter
      (fun a => decide (a.similarity_score = similarity_score_of 0)) :=
  (C8_sort_contract pureBuild (fun _ => [(0, (0 : ℚ)), (1, 0)]) (some [[1], [1]])
    [tA, tB] 10).2 [[1], [1]] [mkRecommendation tA 0, mkRecommendation tB 0]
    (similarity_score_of 0) rfl (by simp) (by simp) rfl

/-- C10: the neighbor count requested from the index is `min(10, index size)`
with `top_k` fixed at its default of 10 by `process_company_profile`; under
the index/store alignment invariant and the FAISS contract that a search for
`k ≤ ntotal` neighbors returns `k` rows, the recommendation list has length at
most `min 10 (number of stored tenders)`. -/
theorem C10_at_most_ten :
    ∀ (build : TenderSchema → ℚ → Except Unit RecommendationSchema)
      (search : ℕ → List (ℕ × ℚ)) (vecs : List (List ℚ))
      (tenders : List TenderSchema),
      vecs.length = tenders.length →
      (search (min 10 vecs.length)).length = min 10 vecs.length →
      (process_company_profile_recs build search (some vecs) tenders).length ≤
        min 10 tenders.length := by
  intro build search vecs tenders hlen hsearch
  rw [process_company_profile_recs, find_matching_tenders]
  by_cases hg : (tenders.isEmpty || vecs.length == 0) = true
  · rw [if_pos hg]; simp
  · rw [if_neg hg]
    cases hs : scoreNeighbors build tenders (search (min 10 vecs.length)) [] with
    | error e => simp
    | ok recs =>
        have h1 := scoreNeighbors_length build tenders _ [] recs hs
        rw [hsearch] at h1
        have h2 : (sortRecsDesc recs).length = recs.length :=
          List.length_insertionSort recGE recs
        rw [hlen] at h1
        simp only [List.length_nil] at h1
        show (sortRecsDesc recs).length ≤ min 10 tenders.length
        omega

/-- C10 witness: one stored tender, aligned one-vector index, contract-abiding
search; the returned list has length at most `min 10 1`. -/
theorem C10_at_most_ten_witness :
    (process_company_profile_recs pureBuild (fun _ => [(0, (0 : ℚ))])
      (some [[1]]) [tA]).length ≤ min 10 [tA].length :=
  C10_at_most_ten pureBuild (fun _ => [(0, (0 : ℚ))]) [[1]] [tA] rfl rfl

/-! ### Index/store alignment of scrape-and-store cycles (C1) -/

theorem step_equations (emb : String → List ℚ) (batch : List TenderSchema)
    (s : AgentState) :
    (process_and_store_tenders emb batch s).tenders =
      s.tenders ++ batch.map (withEmbedding emb) ∧
    indexVecs (process_and_store_tenders emb batch s).index =
      indexVecs s.index ++ batch.map (fun t => emb (embText t)) := by
  unfold process_and_store_tenders update_index
  by_cases hb : batch = []
  · subst hb; simp
  · have h1 : (batch.map (withEmbedding emb)).isEmpty = false := by
      simp [List.isEmpty_eq_false, hb]
    have h2 : (batch.map fun t => emb (embText t)).isEmpty = false := by
      simp [List.isEmpty_eq_false, hb]
    simp [h1, h2, indexVecs]

/-- The in-memory alignment invariant: the index holds exactly the embeddings
of the stored tenders, in store order. -/
def alignedWith (emb : String → List ℚ) (s : AgentState) : Prop :=
  indexVecs s.index = s.tenders.map (fun t => emb (embText t))

theorem aligned_step (emb : String → List ℚ) (batch : List TenderSchema)
    (s : AgentState) (h : alignedWith emb s) :
    alignedWith emb (process_and_store_tenders emb batch s) := by
  unfold alignedWith at h ⊢
  obtain ⟨ht, hi⟩ := step_equations emb batch s
  rw [ht, hi, h, List.map_append, List.map_map]
  rfl

theorem aligned_run (emb : String → List ℚ) (batches : List (List TenderSchema)) :
    alignedWith emb (runScrapeCycles emb batches) := by
  rw [runScrapeCycles]
  have : ∀ (l : List (List TenderSchema)) (s : AgentState), alignedWith emb s →
      alignedWith emb (l.foldl (fun s b => process_and_store_tenders emb b s) s) := by
    intro l
    induction l with
    | nil => exact fun s hs => hs
    | cons b bs ih => exact fun s hs => ih _ (aligned_step emb b s hs)
  exact this batches initAgentState rfl

/-- C1: after any sequence of completed scrape-and-store cycles, the index and
the store have equal counts; the vector at every ordinal `i` is the embedding
of the title-space-description text of the tender at position `i` of the
store; and within one call the store is extended by exactly the batch while
the index is extended by exactly the batch's embeddings, in the same order. -/
theorem C1_index_store_alignment :
    ∀ (emb : String → List ℚ) (batches : List (List TenderSchema)),
      (indexVecs (runScrapeCycles emb batches).index).length =
        (runScrapeCycles emb batches).tenders.length ∧
      (∀ i : ℕ, i < (runScrapeCycles emb batches).tenders.length →
        (indexVecs (runScrapeCycles emb batches).index)[i]? =
          ((runScrapeCycles emb batches).tenders[i]?).map (fun t => emb (embText t))) ∧
      (∀ (s : AgentState) (batch : List TenderSchema),
        (process_and_store_tenders emb batch s).tenders =
          s.tenders ++ batch.map (withEmbedding emb) ∧
        indexVecs (process_and_store_tenders emb batch s).index =
          indexVecs s.index ++ batch.map (fun t => emb (embText t))) := by
  intro emb batches
  have ha := aligned_run emb batches
  unfold alignedWith at ha
  refine ⟨by rw [ha]; simp, ?_, fun s batch => step_equations emb batch s⟩
  intro i _
  rw [ha, List.getElem?_map]

def embW : String → List ℚ := fun _ => [0]

/-- C1 witness: a single one-tender cycle; the vector at ordinal 0 is the
embedding of tender 0's title-space-description text. -/
theorem C1_index_store_alignment_witness :
    0 < (runScrapeCycles embW [[tA]]).tenders.length ∧
    (indexVecs (runScrapeCycles embW [[tA]]).index)[0]? =
      ((runScrapeCycles embW [[tA]]).tenders[0]?).map (fun t => embW (embText t)) :=
  ⟨by decide, (C1_index_store_alignment embW [[tA]]).2.1 0 (by decide)⟩

/-- C7 counterexample: under the configuration `VECTOR_DIMENSION = 768`, the
tender path's failure fallback is the 768-long zero vector while the company
path's is the hard-coded 384-long zero vector — the two embedding paths do not
share one dimension under every configuration. -/
theorem C7_dimension_counterexample :
    tender_get_embedding 768 EmbOutcome.raised = List.replicate 768 0 ∧
    company_get_embedding EmbOutcome.raised = List.replicate 384 0 ∧
    tender_get_embedding 768 EmbOutcome.raised ≠ company_get_embedding EmbOutcome.raised := by
  refine ⟨rfl, rfl, fun h => ?_⟩
  have hl : (List.replicate 768 (0 : ℚ)).length = (List.replicate 384 (0 : ℚ)).length :=
    congrArg List.length h
  rw [List.length_replicate, List.length_replicate] at hl
  exact absurd hl (by decide)

/-- C7 amended: on every embedding-service failure each `get_embedding`
returns a zero vector instead of raising — of the configured
`VECTOR_DIMENSION` on the tender path and of the hard-coded length 384 on the
company path; the two paths agree only when the configured dimension is 384
(the default). -/
theorem C7_zero_vector_fallback :
    ∀ (vectorDimension : ℕ) (o : EmbOutcome), embFailed o →
      tender_get_embedding vectorDimension o = List.replicate vectorDimension 0 ∧
      company_get_embedding o = List.replicate 384 0 ∧
      (vectorDimension = 384 →
        tender_get_embedding vectorDimension o = company_get_embedding o) := by
  intro d o hf
  cases o with
  | raised => exact ⟨rfl, rfl, fun hd => by subst hd; rfl⟩
  | response status emb =>
      by_cases hs : status = 200
      · subst hs
        have he : emb = none := by
          rcases hf with h200 | he
          · exact absurd rfl h200
          · exact he
        subst he
        exact ⟨rfl, rfl, fun hd => by subst hd; rfl⟩
      · have hb : (status != 200) = true := bne_iff_ne.mpr hs
        refine ⟨?_, ?_, fun hd => by subst hd; rfl⟩
        · show (if (status != 200) = true then List.replicate d 0
              else emb.getD (List.replicate d 0)) = List.replicate d 0
          rw [if_pos hb]
        · show (if (status != 200) = true then List.replicate 384 0
              else emb.getD (List.replicate 384 0)) = List.replicate 384 0
          rw [if_pos hb]

/-- C7 amended witness: a network exception with the default configuration. -/
theorem C7_zero_vector_fallback_witness :
    tender_get_embedding 384 EmbOutcome.raised = List.replicate 384 0 ∧
    company_get_embedding EmbOutcome.raised = List.replicate 384 0 ∧
    tender_get_embedding 384 EmbOutcome.raised = company_get_embedding EmbOutcome.raised :=
  let h := C7_zero_vector_fallback 384 EmbOutcome.raised trivial
  ⟨h.1, h.2.1, h.2.2 rfl⟩

/-! ### Serialization of recommendations (C9) -/

def tEmb : TenderSchema :=
  { id := "t-1", title := "T", description := "D", source := "s", url := "u",
    raw_text := "r", embedding := some [1, 2] }

def recEmb : RecommendationSchema :=
  { tender_id := "t-1", tender_title := "T", similarity_score := 50,
    tender_details := tEmb }

/-- C9: the exclude argument `{"tender_details.embedding"}` matches no
top-level field of `RecommendationSchema`, so it excludes nothing, and the
serialized `tender_details` of a successful match result still carries the
tender's embedding vector — the external representation does not exclude it. -/
theorem C9_embedding_not_excluded :
    (∀ r : RecommendationSchema,
      rec_model_dump r ["tender_details.embedding"] = rec_model_dump r []) ∧
    (serialize_recommendations [recEmb]).map
        (fun j => (jlookup j "tender_details").bind (fun td => jlookup td "embedding")) =
      [some (JValue.jlist [JValue.jnum 1, JValue.jnum 2])] :=
  ⟨fun _ => rfl, rfl⟩
